import Mathlib

/-!
Verification of the shape geometry and interaction engine of the
building-planner drawing application.

The engine lives in `src/components/DrawingCanvas.vue` (hit-testing,
selection, drag-move, resize-handle manipulation, shape creation, dimension
labels) with the selected-shape dimension readout in
`src/components/StatusBar.vue`.  JavaScript numbers are modelled as exact
rationals (coerced to `ℝ` where the source takes square roots or
arctangents); shape records are modelled as a Lean structure carrying every
field the source stores on a shape object.
-/

namespace BuildingPlanner

/-- A 2D point `{x, y}` in canvas coordinates. -/
structure Point where
  x : ℚ
  y : ℚ
deriving DecidableEq

/-- The three values of `shape.type` used by the source
(`'line' | 'rectangle' | 'circle'`). -/
inductive ShapeType
  | line
  | rectangle
  | circle
deriving DecidableEq

/-- A shape record as built by `createShape` in `DrawingCanvas.vue`: a
bounding box `{x, y, width, height}`, the gesture endpoints
`{startX, startY, endX, endY}` (meaningful for lines), an opaque id and the
stroke/fill colors. -/
structure Shape where
  id : String
  type : ShapeType
  x : ℚ
  y : ℚ
  width : ℚ
  height : ℚ
  startX : ℚ
  startY : ℚ
  endX : ℚ
  endY : ℚ
  color : String
  fillColor : String
deriving DecidableEq

/-- The radicand of `distance` in `DrawingCanvas.vue`:
`Math.pow(p2.x - p1.x, 2) + Math.pow(p2.y - p1.y, 2)`. -/
def distSq (p1 p2 : Point) : ℚ :=
  (p2.x - p1.x) ^ 2 + (p2.y - p1.y) ^ 2

/-- `distance(p1, p2)` from `DrawingCanvas.vue`:
`Math.sqrt(Math.pow(p2.x - p1.x, 2) + Math.pow(p2.y - p1.y, 2))`. -/
noncomputable def distance (p1 p2 : Point) : ℝ :=
  Real.sqrt ((distSq p1 p2 : ℚ) : ℝ)

/-- The radicand `dx*dx + dy*dy` computed by `pointToLineDistance` in
`DrawingCanvas.vue`, including the projection-parameter computation with the
`-1` sentinel for a zero-length segment and the clamping of the parameter to
`[0, 1]` by the `param < 0` / `param > 1` branches. -/
def pointToLineDistanceSq (point lineStart lineEnd : Point) : ℚ :=
  let A := point.x - lineStart.x
  let B := point.y - lineStart.y
  let C := lineEnd.x - lineStart.x
  let D := lineEnd.y - lineStart.y
  let dot := A * C + B * D
  let lenSq := C * C + D * D
  let param := if lenSq ≠ 0 then dot / lenSq else -1
  let xx := if param < 0 then lineStart.x
            else if param > 1 then lineEnd.x
            else lineStart.x + param * C
  let yy := if param < 0 then lineStart.y
            else if param > 1 then lineEnd.y
            else lineStart.y + param * D
  let dx := point.x - xx
  let dy := point.y - yy
  dx * dx + dy * dy

/-- `pointToLineDistance(point, lineStart, lineEnd)` from
`DrawingCanvas.vue`: the final `Math.sqrt(dx * dx + dy * dy)` applied to the
radicand above. -/
noncomputable def pointToLineDistance (point lineStart lineEnd : Point) : ℝ :=
  Real.sqrt ((pointToLineDistanceSq point lineStart lineEnd : ℚ) : ℝ)

/-- `isPointInShape(x, y, shape)` from `DrawingCanvas.vue`: rectangles by
inclusive bounding-box bounds, circles by `distance(point, center) <= radius`
with `radius = Math.max(width, height) / 2`, lines by
`pointToLineDistance(...) < 5`. -/
def isPointInShape (x y : ℚ) (shape : Shape) : Prop :=
  match shape.type with
  | ShapeType.rectangle =>
      shape.x ≤ x ∧ x ≤ shape.x + shape.width ∧
      shape.y ≤ y ∧ y ≤ shape.y + shape.height
  | ShapeType.circle =>
      distance ⟨x, y⟩ ⟨shape.x + shape.width / 2, shape.y + shape.height / 2⟩
        ≤ ((max shape.width shape.height / 2 : ℚ) : ℝ)
  | ShapeType.line =>
      pointToLineDistance ⟨x, y⟩ ⟨shape.startX, shape.startY⟩
        ⟨shape.endX, shape.endY⟩ < 5

instance isPointInShape.decidable (x y : ℚ) (shape : Shape) :
    Decidable (isPointInShape x y shape) :=
  match h : shape.type with
  | ShapeType.rectangle =>
      decidable_of_iff
        (shape.x ≤ x ∧ x ≤ shape.x + shape.width ∧
          shape.y ≤ y ∧ y ≤ shape.y + shape.height)
        (by unfold isPointInShape; rw [h])
  | ShapeType.circle =>
      decidable_of_iff
        (0 ≤ max shape.width shape.height / 2 ∧
          distSq ⟨x, y⟩ ⟨shape.x + shape.width / 2, shape.y + shape.height / 2⟩
            ≤ (max shape.width shape.height / 2) ^ 2)
        (by
          unfold isPointInShape
          rw [h]
          unfold distance
          rw [Real.sqrt_le_iff]
          constructor
          · rintro ⟨h1, h2⟩
            exact ⟨by exact_mod_cast h1, by exact_mod_cast h2⟩
          · rintro ⟨h1, h2⟩
            exact ⟨by exact_mod_cast h1, by exact_mod_cast h2⟩)
  | ShapeType.line =>
      decidable_of_iff
        (pointToLineDistanceSq ⟨x, y⟩ ⟨shape.startX, shape.startY⟩
            ⟨shape.endX, shape.endY⟩ < 25)
        (by
          unfold isPointInShape
          rw [h]
          unfold pointToLineDistance
          rw [show (5 : ℝ) = 5 by norm_num,
            Real.sqrt_lt' (by norm_num : (0 : ℝ) < 5)]
          constructor
          · intro h1; exact_mod_cast h1
          · intro h1; exact_mod_cast h1)

/-- `props.shapes.find(shape => isPointInShape(x, y, shape))` from
`handleMouseDown` in `DrawingCanvas.vue`: the first shape in collection
order hit by the point, `none` otherwise. -/
def findShapeAt (x y : ℚ) : List Shape → Option Shape
  | [] => none
  | shape :: rest =>
      if isPointInShape x y shape then some shape else findShapeAt x y rest

/-- `handleSize = 10` from `getResizeHandle` in `DrawingCanvas.vue`. -/
def handleSize : ℚ := 10

/-- The `handles` object built by `getResizeHandle` in `DrawingCanvas.vue`,
as the (insertion-ordered) list of its entries: `start`/`end` endpoints for
a line, the four bounding-box corners otherwise. -/
def shapeHandles (shape : Shape) : List (String × Point) :=
  if shape.type = ShapeType.line then
    [("start", ⟨shape.startX, shape.startY⟩),
     ("end", ⟨shape.endX, shape.endY⟩)]
  else
    [("top-left", ⟨shape.x, shape.y⟩),
     ("top-right", ⟨shape.x + shape.width, shape.y⟩),
     ("bottom-left", ⟨shape.x, shape.y + shape.height⟩),
     ("bottom-right", ⟨shape.x + shape.width, shape.y + shape.height⟩)]

/-- The per-handle test of `getResizeHandle` in `DrawingCanvas.vue`:
`x >= pos.x - handleSize && x <= pos.x + handleSize && y >= pos.y - handleSize
&& y <= pos.y + handleSize`. -/
def handleHit (x y : ℚ) (pos : Point) : Prop :=
  pos.x - handleSize ≤ x ∧ x ≤ pos.x + handleSize ∧
  pos.y - handleSize ≤ y ∧ y ≤ pos.y + handleSize

instance handleHit.decidable (x y : ℚ) (pos : Point) :
    Decidable (handleHit x y pos) :=
  decidable_of_iff
    (pos.x - handleSize ≤ x ∧ x ≤ pos.x + handleSize ∧
      pos.y - handleSize ≤ y ∧ y ≤ pos.y + handleSize)
    Iff.rfl

/-- The `for (const [handle, pos] of Object.entries(handles))` loop of
`getResizeHandle` in `DrawingCanvas.vue`: return the first entry whose
position passes `handleHit`, or `''` when the loop falls through. -/
def findHandleInList (x y : ℚ) : List (String × Point) → String
  | [] => ""
  | (handle, pos) :: rest =>
      if handleHit x y pos then handle else findHandleInList x y rest

/-- `getResizeHandle(x, y, shape)` from `DrawingCanvas.vue`. -/
def getResizeHandle (x y : ℚ) (shape : Shape) : String :=
  findHandleInList x y (shapeHandles shape)

/-- The resize branch of `handleMouseMove` in `DrawingCanvas.vue`: the shape
emitted by `emit('shape-updated', shape)` for the selected shape, active
resize handle `resizeHandle`, and pointer position `(x, y)`.  Lines move the
grabbed endpoint and re-derive `{x, y, width, height}`; other shapes apply
the per-corner deltas and clamp `width`/`height` to a minimum of 10. -/
def resizeShape (selectedShape : Shape) (resizeHandle : String) (x y : ℚ) :
    Shape :=
  if selectedShape.type = ShapeType.line then
    let s :=
      if resizeHandle = "start" then
        { selectedShape with startX := x, startY := y }
      else if resizeHandle = "end" then
        { selectedShape with endX := x, endY := y }
      else selectedShape
    let minX := min s.startX s.endX
    let minY := min s.startY s.endY
    let maxX := max s.startX s.endX
    let maxY := max s.startY s.endY
    { s with x := minX, y := minY, width := maxX - minX, height := maxY - minY }
  else
    let s :=
      if resizeHandle = "top-left" then
        { selectedShape with
            width := selectedShape.width + (selectedShape.x - x),
            height := selectedShape.height + (selectedShape.y - y),
            x := x, y := y }
      else if resizeHandle = "top-right" then
        { selectedShape with
            width := x - selectedShape.x,
            height := selectedShape.height + (selectedShape.y - y),
            y := y }
      else if resizeHandle = "bottom-left" then
        { selectedShape with
            width := selectedShape.width + (selectedShape.x - x),
            height := y - selectedShape.y,
            x := x }
      else if resizeHandle = "bottom-right" then
        { selectedShape with
            width := x - selectedShape.x,
            height := y - selectedShape.y }
      else selectedShape
    let s2 := if s.width < 10 then { s with width := 10 } else s
    if s2.height < 10 then { s2 with height := 10 } else s2

/-- The drag branch of `handleMouseMove` in `DrawingCanvas.vue`: the shape
emitted while moving the selected shape is a copy with
`x = pointer.x - dragOffset.x` and `y = pointer.y - dragOffset.y`. -/
def dragMove (selectedShape : Shape) (dragOffset : Point) (x y : ℚ) : Shape :=
  { selectedShape with x := x - dragOffset.x, y := y - dragOffset.y }

/-- `createShape()` from `DrawingCanvas.vue`, parameterised by the fresh id
(`uuidv4()` in the source), the active tool and colors, and the recorded
`startPoint`/`endPoint` of the gesture.  Returns `none` exactly when the
source returns `null` (the tiny-shape discard).  The `||` fallbacks of
`props.activeColor || '#333'` and `props.activeFillColor || 'transparent'`
fire on the empty string, the only falsy string. -/
def createShape (newId : String) (activeTool : ShapeType)
    (startPoint endPoint : Point) (activeColor activeFillColor : String) :
    Option Shape :=
  let x := min startPoint.x endPoint.x
  let y := min startPoint.y endPoint.y
  let width := |endPoint.x - startPoint.x|
  let height := |endPoint.y - startPoint.y|
  if width < 5 ∧ height < 5 then none
  else some
    { id := newId
      type := activeTool
      x := x
      y := y
      width := width
      height := height
      startX := startPoint.x
      startY := startPoint.y
      endX := endPoint.x
      endY := endPoint.y
      color := if activeColor = "" then "#333" else activeColor
      fillColor := if activeFillColor = "" then "transparent"
                   else activeFillColor }

/-- The minimum-dimension clamp of the spec (`MIN_DIM = 10`): stated from
the spec's words for comparison with `resizeShape`. -/
def clampDim (w : ℚ) : ℚ := if w < 10 then 10 else w

/-- Clamping both dimensions of a shape at once, from the spec's words
(`"Each dimension is then clamped to MIN_DIM"`). -/
def clampWH (s : Shape) : Shape :=
  { s with width := clampDim s.width, height := clampDim s.height }

/-- The line bounding-box invariant from the spec's words: `{x, y, width,
height}` equals `min/min/abs-width/abs-height` of the two endpoints. -/
def lineBoxInSync (s : Shape) : Prop :=
  s.x = min s.startX s.endX ∧ s.y = min s.startY s.endY ∧
  s.width = |s.endX - s.startX| ∧ s.height = |s.endY - s.startY|

instance lineBoxInSync.decidable (s : Shape) : Decidable (lineBoxInSync s) :=
  decidable_of_iff
    (s.x = min s.startX s.endX ∧ s.y = min s.startY s.endY ∧
      s.width = |s.endX - s.startX| ∧ s.height = |s.endY - s.startY|)
    Iff.rfl

/-- The hit predicate as worded by the spec: rectangles via axis-aligned
bounds inclusive of edges, circles via Euclidean distance from the point to
the bounding-box center `(x + width/2, y + height/2)` at most
`max(width, height) / 2`, lines via point-to-segment distance strictly below
5.  Stated independently of `isPointInShape` for comparison with it. -/
noncomputable def pointInShapeSpec (p : Point) (shape : Shape) : Prop :=
  match shape.type with
  | ShapeType.rectangle =>
      shape.x ≤ p.x ∧ p.x ≤ shape.x + shape.width ∧
      shape.y ≤ p.y ∧ p.y ≤ shape.y + shape.height
  | ShapeType.circle =>
      Real.sqrt (((p.x : ℝ) - ((shape.x : ℝ) + (shape.width : ℝ) / 2)) ^ 2 +
          ((p.y : ℝ) - ((shape.y : ℝ) + (shape.height : ℝ) / 2)) ^ 2)
        ≤ max (shape.width : ℝ) (shape.height : ℝ) / 2
  | ShapeType.line =>
      pointToLineDistance p ⟨shape.startX, shape.startY⟩
        ⟨shape.endX, shape.endY⟩ < 5

/-- Model of the JavaScript builtin `Math.atan2(y, x)` on real arguments:
the angle of the vector `(x, y)` in `(-π, π]`, with `atan2(0, 0) = 0`
(signed zeros do not exist in `ℝ`). -/
noncomputable def atan2 (y x : ℝ) : ℝ :=
  if 0 < x then Real.arctan (y / x)
  else if x < 0 then
    (if 0 ≤ y then Real.arctan (y / x) + Real.pi
     else Real.arctan (y / x) - Real.pi)
  else if 0 < y then Real.pi / 2
  else if y < 0 then -(Real.pi / 2)
  else 0

/-- The `length` computed by the `'line'` case of `drawAnnotations` in
`DrawingCanvas.vue`: `Math.round(distance(start, end))`. -/
noncomputable def lineLengthPx (shape : Shape) : ℤ :=
  round (distance ⟨shape.startX, shape.startY⟩ ⟨shape.endX, shape.endY⟩)

/-- A text draw instruction: the string passed to `ctx.fillText` and the
anchor position it is drawn at. -/
structure TextLabel where
  text : String
  x : ℚ
  y : ℚ
deriving DecidableEq

/-- The dimension label drawn for a line by `drawAnnotations` in
`DrawingCanvas.vue`: text `` `${length}px` `` at `(midX + 5, midY - 5)`
where `(midX, midY)` is the segment midpoint. -/
noncomputable def lineLabel (shape : Shape) : TextLabel :=
  { text := toString (lineLengthPx shape) ++ "px"
    x := (shape.startX + shape.endX) / 2 + 5
    y := (shape.startY + shape.endY) / 2 - 5 }

/-- The `length` computed by the `'line'` case of `getDimensionsInfo` in
`StatusBar.vue`: `Math.round(Math.sqrt(dx*dx + dy*dy))` for
`dx = endX - startX`, `dy = endY - startY`. -/
noncomputable def statusLineLength (shape : Shape) : ℤ :=
  round (Real.sqrt
    ((((shape.endX - shape.startX) * (shape.endX - shape.startX) +
        (shape.endY - shape.startY) * (shape.endY - shape.startY) : ℚ)) : ℝ))

/-- The `angle` computed by the `'line'` case of `getDimensionsInfo` in
`StatusBar.vue`: `Math.round(Math.atan2(dy, dx) * 180 / Math.PI)`. -/
noncomputable def statusLineAngle (shape : Shape) : ℤ :=
  round (atan2 ((shape.endY - shape.startY : ℚ) : ℝ)
      ((shape.endX - shape.startX : ℚ) : ℝ) * 180 / Real.pi)

/-- The string returned by the `'line'` case of `getDimensionsInfo` in
`StatusBar.vue`: `` `Length: ${length}px, Angle: ${angle}°` ``. -/
noncomputable def lineDimensionsInfo (shape : Shape) : String :=
  "Length: " ++ toString (statusLineLength shape) ++ "px, Angle: " ++
    toString (statusLineAngle shape) ++ "°"

/-- A concrete 100×100 rectangle at the origin (the spec's resize
scenario). -/
def rectA : Shape :=
  { id := "rect-a", type := ShapeType.rectangle, x := 0, y := 0,
    width := 100, height := 100, startX := 0, startY := 0,
    endX := 100, endY := 100, color := "#333", fillColor := "transparent" }

/-- A concrete 50×50 rectangle at the origin, overlapping `rectA`. -/
def rectB : Shape :=
  { id := "rect-b", type := ShapeType.rectangle, x := 0, y := 0,
    width := 50, height := 50, startX := 0, startY := 0,
    endX := 50, endY := 50, color := "#333", fillColor := "transparent" }

/-- The spec's example line `{startX: 0, startY: 0, endX: 10, endY: 0}`,
with its bounding box in sync. -/
def lineH : Shape :=
  { id := "line-h", type := ShapeType.line, x := 0, y := 0,
    width := 10, height := 0, startX := 0, startY := 0,
    endX := 10, endY := 0, color := "#333", fillColor := "transparent" }

/-- The spec's example line from `(0, 0)` to `(3, 4)`. -/
def line345 : Shape :=
  { id := "line-345", type := ShapeType.line, x := 0, y := 0,
    width := 3, height := 4, startX := 0, startY := 0,
    endX := 3, endY := 4, color := "#333", fillColor := "transparent" }

/-- A nearly-backward line from `(0, 0)` to `(-1000, -1)`, whose direction
is a fraction of a degree above `-180°`. -/
def lineBack : Shape :=
  { id := "line-back", type := ShapeType.line, x := -1000, y := -1,
    width := 1000, height := 1, startX := 0, startY := 0,
    endX := -1000, endY := -1, color := "#333", fillColor := "transparent" }

/-- Claim C1: `findShapeAt` returns the earliest-indexed shape in the list
for which `isPointInShape` holds, and `none` exactly when no shape is hit
(in particular on the empty list); a later overlapping shape is never
returned ahead of an earlier match. -/
theorem findShapeAt_first_match (x y : ℚ) (shapes : List Shape) :
    (findShapeAt x y shapes = none ↔ ∀ s ∈ shapes, ¬ isPointInShape x y s) ∧
    ∀ s, findShapeAt x y shapes = some s →
      isPointInShape x y s ∧
      ∃ i, ∃ hi : i < shapes.length, shapes.get ⟨i, hi⟩ = s ∧
        ∀ j, ∀ hj : j < shapes.length, j < i →
          ¬ isPointInShape x y (shapes.get ⟨j, hj⟩) := by
  induction shapes with
  | nil =>
    refine ⟨(by simp [findShapeAt]), ?_⟩
    intro s hs
    simp [findShapeAt] at hs
  | cons a rest ih =>
    by_cases ha : isPointInShape x y a
    · rw [findShapeAt, if_pos ha]
      refine ⟨⟨fun h => Option.noConfusion h,
        fun h => absurd ha (h a (List.mem_cons_self a rest))⟩, ?_⟩
      intro s hs
      have hsa : a = s := by injection hs
      subst hsa
      refine ⟨ha, 0, Nat.succ_pos _, rfl, ?_⟩
      intro j hj hj0
      exact absurd hj0 (Nat.not_lt_zero j)
    · rw [findShapeAt, if_neg ha]
      refine ⟨?_, ?_⟩
      · rw [ih.1]
        constructor
        · intro h s hs
          rcases List.mem_cons.mp hs with rfl | hs
          · exact ha
          · exact h s hs
        · intro h s hs
          exact h s (List.mem_cons_of_mem a hs)
      · intro s hs
        obtain ⟨hhit, i, hi, hget, hprev⟩ := ih.2 s hs
        refine ⟨hhit, i + 1, Nat.succ_lt_succ hi, hget, ?_⟩
        intro j hj hji
        match j, hj with
        | 0, _ => exact ha
        | (k + 1), hj =>
          exact hprev k (Nat.succ_lt_succ_iff.mp hj) (Nat.succ_lt_succ_iff.mp hji)

/-- Witness for C1: the point `(10, 10)` is inside both of the overlapping
rectangles `rectA` and `rectB`, and `findShapeAt` returns the earlier one;
on the empty list the characterisation gives `none`. -/
theorem findShapeAt_first_match_witness :
    isPointInShape 10 10 rectA ∧ isPointInShape 10 10 rectB ∧
    findShapeAt 10 10 [rectA, rectB] = some rectA ∧
    (findShapeAt 10 10 [] = none ↔
      ∀ s ∈ ([] : List Shape), ¬ isPointInShape 10 10 s) := by
  have hA : isPointInShape 10 10 rectA := by norm_num [isPointInShape, rectA]
  have hB : isPointInShape 10 10 rectB := by norm_num [isPointInShape, rectB]
  refine ⟨hA, hB, ?_, (findShapeAt_first_match 10 10 []).1⟩
  rw [findShapeAt, if_pos hA]

/-- Counterexample for C2: dragging the line `lineH` (whose box is in sync)
by 5 pixels leaves its endpoints untouched, so the stored `x` no longer
equals `min(startX, endX)`. -/
theorem dragMove_desyncs_line_box :
    lineBoxInSync lineH ∧ ¬ lineBoxInSync (dragMove lineH ⟨0, 0⟩ 5 0) := by
  constructor
  · norm_num [lineBoxInSync, lineH]
  · norm_num [lineBoxInSync, dragMove, lineH]

/-- Claim C2 (amended): the line bounding-box invariant
`x = min(startX,endX), y = min(startY,endY), width = |endX-startX|,
height = |endY-startY|` holds after creation on pointer-up and after any
endpoint resize; a drag-move, however, only rewrites `x` and `y` and leaves
all four endpoint fields unchanged, so it does not re-synchronise the box
for lines. -/
theorem lineBoxInSync_rederive (s1 : Shape) :
    lineBoxInSync
      { s1 with x := min s1.startX s1.endX, y := min s1.startY s1.endY,
                width := max s1.startX s1.endX - min s1.startX s1.endX,
                height := max s1.startY s1.endY - min s1.startY s1.endY } := by
  refine ⟨rfl, rfl, ?_, ?_⟩ <;> dsimp only <;>
    rw [max_sub_min_eq_abs, abs_sub_comm]

theorem line_box_sync_after_mutations :
    (∀ newId tool sp ep c fc s,
      createShape newId tool sp ep c fc = some s → lineBoxInSync s) ∧
    (∀ s handle px py, s.type = ShapeType.line →
      lineBoxInSync (resizeShape s handle px py)) ∧
    (∀ s off px py,
      (dragMove s off px py).startX = s.startX ∧
      (dragMove s off px py).startY = s.startY ∧
      (dragMove s off px py).endX = s.endX ∧
      (dragMove s off px py).endY = s.endY) := by
  refine ⟨?_, ?_, ?_⟩
  · intro newId tool sp ep c fc s hs
    simp only [createShape] at hs
    by_cases h : |ep.x - sp.x| < 5 ∧ |ep.y - sp.y| < 5
    · rw [if_pos h] at hs
      cases hs
    · rw [if_neg h] at hs
      injection hs with hs
      subst hs
      exact ⟨rfl, rfl, rfl, rfl⟩
  · intro s handle px py h
    simp only [resizeShape, if_pos h]
    exact lineBoxInSync_rederive _
  · intro s off px py
    exact ⟨rfl, rfl, rfl, rfl⟩

/-- Witness for C2 (amended): a concrete line creation and a concrete
endpoint resize both leave the box in sync, and a drag keeps the concrete
endpoints. -/
theorem line_box_sync_witness :
    lineH.type = ShapeType.line ∧
    lineBoxInSync (resizeShape lineH "start" 3 4) ∧
    ∃ s, createShape "fresh" ShapeType.line ⟨0, 0⟩ ⟨10, 0⟩ "#333" "" = some s ∧
      lineBoxInSync s := by
  have h := line_box_sync_after_mutations
  refine ⟨rfl, h.2.1 lineH "start" 3 4 rfl, ?_⟩
  have hc : createShape "fresh" ShapeType.line ⟨0, 0⟩ ⟨10, 0⟩ "#333" "" =
      some { id := "fresh", type := ShapeType.line, x := 0, y := 0,
             width := 10, height := 0, startX := 0, startY := 0,
             endX := 10, endY := 0, color := "#333",
             fillColor := "transparent" } := by
    simp [createShape]
    norm_num
  exact ⟨_, hc, h.1 _ _ _ _ _ _ _ hc⟩

/-- Counterexample for C3: resizing the line `lineH` by its `start` handle
onto its own end point emits a shape with `width = 0 < 10` and
`height = 0 < 10` — the line branch of the resize has no minimum-dimension
clamp. -/
theorem resizeShape_line_no_clamp :
    (resizeShape lineH "start" 10 0).width < 10 ∧
    (resizeShape lineH "start" 10 0).height < 10 := by
  constructor <;> simp [resizeShape, lineH]

/-- Claim C3 (amended): for every non-line shape (rectangle or circle),
every resize handle and every pointer position, the emitted shape satisfies
`width ≥ 10` and `height ≥ 10` (sub-minimum values are clamped up to 10);
lines are exempt, their box being re-derived from the endpoints without
clamping. -/
theorem resize_clamps_min_dims (s : Shape) (handle : String) (px py : ℚ)
    (h : s.type ≠ ShapeType.line) :
    10 ≤ (resizeShape s handle px py).width ∧
    10 ≤ (resizeShape s handle px py).height := by
  simp only [resizeShape, if_neg h]
  constructor <;> (split_ifs <;> simp_all)

/-- Witness for C3 (amended): the spec's rectangle dragged by its
bottom-right handle to `(-5, -5)` is clamped to the 10×10 minimum. -/
theorem resize_clamps_min_dims_witness :
    rectA.type ≠ ShapeType.line ∧
    (10 ≤ (resizeShape rectA "bottom-right" (-5) (-5)).width ∧
      10 ≤ (resizeShape rectA "bottom-right" (-5) (-5)).height) ∧
    (resizeShape rectA "bottom-right" (-5) (-5)).width = 10 ∧
    (resizeShape rectA "bottom-right" (-5) (-5)).height = 10 := by
  refine ⟨by simp [rectA],
    resize_clamps_min_dims rectA "bottom-right" (-5) (-5) (by simp [rectA]), ?_⟩
  constructor <;> (simp [resizeShape, rectA]; norm_num)

/-- Claim C5: the shape constructed at pointer-up has
`x = min(start.x, end.x)`, `y = min(start.y, end.y)`,
`width = |end.x - start.x|`, `height = |end.y - start.y|`, and it is added
(`some`) exactly when not both dimensions are below 5; otherwise nothing is
emitted (`none`). -/
theorem createShape_min_size (newId : String) (tool : ShapeType)
    (sp ep : Point) (c fc : String) :
    (createShape newId tool sp ep c fc = none ↔
      |ep.x - sp.x| < 5 ∧ |ep.y - sp.y| < 5) ∧
    ∀ s, createShape newId tool sp ep c fc = some s →
      s.x = min sp.x ep.x ∧ s.y = min sp.y ep.y ∧
      s.width = |ep.x - sp.x| ∧ s.height = |ep.y - sp.y| ∧
      s.id = newId ∧ s.type = tool ∧ s.startX = sp.x ∧ s.startY = sp.y ∧
      s.endX = ep.x ∧ s.endY = ep.y := by
  simp only [createShape]
  by_cases h : |ep.x - sp.x| < 5 ∧ |ep.y - sp.y| < 5
  · rw [if_pos h]
    exact ⟨iff_of_true rfl h, fun s hs => Option.noConfusion hs⟩
  · rw [if_neg h]
    refine ⟨iff_of_false (fun hc => Option.noConfusion hc) h, fun s hs => ?_⟩
    injection hs with hs
    subst hs
    exact ⟨rfl, rfl, rfl, rfl, rfl, rfl, rfl, rfl, rfl, rfl⟩

/-- Witness for C5: the spec's two scenarios — a rectangle drawn from
`(10,10)` to `(60,40)` is added as `{x:10, y:10, width:50, height:30}`, and
a drag from `(10,10)` to `(12,11)` adds nothing. -/
theorem createShape_min_size_witness :
    createShape "new-1" ShapeType.rectangle ⟨10, 10⟩ ⟨12, 11⟩ "#333"
        "transparent" = none ∧
    ∃ s, createShape "new-1" ShapeType.rectangle ⟨10, 10⟩ ⟨60, 40⟩ "#333"
        "transparent" = some s ∧
      s.x = 10 ∧ s.y = 10 ∧ s.width = 50 ∧ s.height = 30 := by
  constructor
  · exact (createShape_min_size "new-1" ShapeType.rectangle ⟨10, 10⟩ ⟨12, 11⟩
      "#333" "transparent").1.mpr (by norm_num)
  · have hc : createShape "new-1" ShapeType.rectangle ⟨10, 10⟩ ⟨60, 40⟩ "#333"
        "transparent" =
        some { id := "new-1", type := ShapeType.rectangle, x := 10, y := 10,
               width := 50, height := 30, startX := 10, startY := 10,
               endX := 60, endY := 40, color := "#333",
               fillColor := "transparent" } := by
      simp [createShape]
      norm_num
    obtain ⟨h1, h2, h3, h4, _⟩ :=
      (createShape_min_size "new-1" ShapeType.rectangle ⟨10, 10⟩ ⟨60, 40⟩
        "#333" "transparent").2 _ hc
    exact ⟨_, hc, by rw [h1]; norm_num, by rw [h2]; norm_num,
      by rw [h3]; norm_num, by rw [h4]; norm_num⟩

/-- Helper: on a zero-length segment the projection parameter keeps the
`-1` sentinel, so the squared point-to-segment distance collapses to the
squared distance to the segment's start point. -/
theorem pointToLineDistanceSq_degenerate (p a : Point) :
    pointToLineDistanceSq p a a = distSq p a := by
  simp [pointToLineDistanceSq, distSq]
  ring

/-- Claim C6: for every point `p` and point `a`, the distance from `p` to
the zero-length segment from `a` to `a` equals `distance(p, a)`: the
projection parameter stays at the `-1` sentinel, is treated as below the
`[0,1]` range, and the distance to the segment's start point is
returned. -/
theorem pointToLineDistance_zero_length (p a : Point) :
    pointToLineDistance p a a = distance p a := by
  unfold pointToLineDistance distance
  rw [pointToLineDistanceSq_degenerate]

/-- Claim C10: a drag-move emits a shape whose `x`/`y` are the pointer
minus the recorded offset while every other stored field — id, type,
width, height, colors and the four line endpoint fields — is unchanged;
and no mutation (drag or resize) ever changes the id. -/
theorem dragMove_frame_effect (s : Shape) (off : Point) (px py : ℚ)
    (handle : String) :
    (dragMove s off px py).x = px - off.x ∧
    (dragMove s off px py).y = py - off.y ∧
    (dragMove s off px py).id = s.id ∧
    (dragMove s off px py).type = s.type ∧
    (dragMove s off px py).width = s.width ∧
    (dragMove s off px py).height = s.height ∧
    (dragMove s off px py).color = s.color ∧
    (dragMove s off px py).fillColor = s.fillColor ∧
    (dragMove s off px py).startX = s.startX ∧
    (dragMove s off px py).startY = s.startY ∧
    (dragMove s off px py).endX = s.endX ∧
    (dragMove s off px py).endY = s.endY ∧
    (resizeShape s handle px py).id = s.id := by
  refine ⟨rfl, rfl, rfl, rfl, rfl, rfl, rfl, rfl, rfl, rfl, rfl, rfl, ?_⟩
  simp only [resizeShape]
  split_ifs <;> rfl

/-- Claim C4: for a non-line shape, each of the four corner handles emits
exactly the per-handle delta formula of the spec, computed from the
pre-move values, with both dimensions then clamped to 10. -/
theorem resize_handle_formulas (s : Shape) (px py : ℚ)
    (h : s.type ≠ ShapeType.line) :
    resizeShape s "top-left" px py =
      clampWH { s with
          x := px, y := py,
          width := s.width + (s.x - px),
          height := s.height + (s.y - py) } ∧
    resizeShape s "top-right" px py =
      clampWH { s with
          y := py, width := px - s.x,
          height := s.height + (s.y - py) } ∧
    resizeShape s "bottom-left" px py =
      clampWH { s with
          x := px, width := s.width + (s.x - px),
          height := py - s.y } ∧
    resizeShape s "bottom-right" px py =
      clampWH { s with width := px - s.x, height := py - s.y } := by
  refine ⟨?_, ?_, ?_, ?_⟩ <;>
    (simp [resizeShape, h, clampWH, clampDim]
     split_ifs <;> rfl)

/-- Witness for C4: the spec's scenario on the selected rectangle
`{x:0, y:0, width:100, height:100}` — dragging the bottom-right handle to
`(40, 40)` yields `{x:0, y:0, width:40, height:40}`, and to `(-5, -5)`
yields the clamped `{width:10, height:10}`. -/
theorem resize_handle_formulas_witness :
    rectA.type ≠ ShapeType.line ∧
    resizeShape rectA "bottom-right" 40 40 =
      clampWH { rectA with width := 40 - rectA.x, height := 40 - rectA.y } ∧
    resizeShape rectA "bottom-right" 40 40 =
      { rectA with width := 40, height := 40 } ∧
    (resizeShape rectA "bottom-right" (-5) (-5)).width = 10 ∧
    (resizeShape rectA "bottom-right" (-5) (-5)).height = 10 := by
  have ht : rectA.type ≠ ShapeType.line := by simp [rectA]
  refine ⟨ht, (resize_handle_formulas rectA 40 40 ht).2.2.2, ?_, ?_, ?_⟩
  · simp [resizeShape, rectA]
    norm_num
  · simp [resizeShape, rectA]
    norm_num
  · simp [resizeShape, rectA]
    norm_num

/-- Claim C7: the code's hit predicate agrees, for every point and shape,
with the spec's wording — inclusive bounding-box bounds for rectangles,
Euclidean distance from the point to the box center at most
`max(width, height)/2` for circles, and point-to-segment distance strictly
below 5 for lines. -/
theorem isPointInShape_spec (x y : ℚ) (shape : Shape) :
    isPointInShape x y shape ↔ pointInShapeSpec ⟨x, y⟩ shape := by
  unfold isPointInShape pointInShapeSpec
  cases h : shape.type with
  | rectangle => exact Iff.rfl
  | line => exact Iff.rfl
  | circle =>
    unfold distance
    have harg : ((distSq ⟨x, y⟩
          ⟨shape.x + shape.width / 2, shape.y + shape.height / 2⟩ : ℚ) : ℝ)
        = (((⟨x, y⟩ : Point).x : ℝ) -
              ((shape.x : ℝ) + (shape.width : ℝ) / 2)) ^ 2 +
          (((⟨x, y⟩ : Point).y : ℝ) -
              ((shape.y : ℝ) + (shape.height : ℝ) / 2)) ^ 2 := by
      unfold distSq
      push_cast
      ring
    have hr : ((max shape.width shape.height / 2 : ℚ) : ℝ)
        = max (shape.width : ℝ) (shape.height : ℝ) / 2 := by
      push_cast [Rat.cast_max]
      ring
    rw [harg, hr]

/-- Helper: first-match characterisation of the handle-scanning loop, for
any handle list whose names are nonempty strings. -/
theorem findHandleInList_first (x y : ℚ) (l : List (String × Point))
    (hne : ∀ hp ∈ l, hp.1 ≠ "") :
    (findHandleInList x y l = "" ↔ ∀ hp ∈ l, ¬ handleHit x y hp.2) ∧
    ∀ name, findHandleInList x y l = name → name ≠ "" →
      ∃ i, ∃ hi : i < l.length, (l.get ⟨i, hi⟩).1 = name ∧
        handleHit x y (l.get ⟨i, hi⟩).2 ∧
        ∀ j, ∀ hj : j < l.length, j < i →
          ¬ handleHit x y (l.get ⟨j, hj⟩).2 := by
  induction l with
  | nil =>
    refine ⟨(by simp [findHandleInList]), ?_⟩
    intro name hn hname
    rw [findHandleInList] at hn
    exact absurd hn.symm hname
  | cons hp rest ih =>
    obtain ⟨handle, pos⟩ := hp
    have hhead : handle ≠ "" := hne (handle, pos) (List.mem_cons_self _ _)
    have hrest : ∀ hp ∈ rest, hp.1 ≠ "" :=
      fun hp hmem => hne hp (List.mem_cons_of_mem _ hmem)
    by_cases hh : handleHit x y pos
    · rw [findHandleInList, if_pos hh]
      refine ⟨iff_of_false hhead ?_, ?_⟩
      · intro hall
        exact hall (handle, pos) (List.mem_cons_self _ _) hh
      · intro name hn hname
        refine ⟨0, Nat.succ_pos _, hn, hh, ?_⟩
        intro j hj hj0
        exact absurd hj0 (Nat.not_lt_zero j)
    · rw [findHandleInList, if_neg hh]
      obtain ⟨ih1, ih2⟩ := ih hrest
      refine ⟨?_, ?_⟩
      · rw [ih1]
        constructor
        · intro h hp hmem
          rcases List.mem_cons.mp hmem with rfl | hmem
          · exact hh
          · exact h hp hmem
        · intro h hp hmem
          exact h hp (List.mem_cons_of_mem _ hmem)
      · intro name hn hname
        obtain ⟨i, hi, hgeti, hhiti, hprev⟩ := ih2 name hn hname
        refine ⟨i + 1, Nat.succ_lt_succ hi, hgeti, hhiti, ?_⟩
        intro j hj hji
        match j, hj with
        | 0, _ => exact hh
        | (k + 1), hj =>
          exact hprev k (Nat.succ_lt_succ_iff.mp hj) (Nat.succ_lt_succ_iff.mp hji)

/-- Claim C8 (amended): `getResizeHandle` checks the candidate handles in
enumeration order (start, end for a line; the four corners otherwise) and
returns the first whose position is within the 10-pixel square tolerance
(`|p.x - h.x| ≤ 10` and `|p.y - h.y| ≤ 10`), the empty result standing for
`none`; for the line from `(0,0)` to `(10,0)`, the point `(0,0)` grabs
`start`, the point `(10,0)` also grabs `start` (the start handle lies at
distance exactly 10, inside the inclusive tolerance, and is checked
first), and `(11,0)` grabs `end`. -/
theorem getResizeHandle_spec (x y : ℚ) (shape : Shape) :
    (∀ pos : Point, handleHit x y pos ↔
      |x - pos.x| ≤ 10 ∧ |y - pos.y| ≤ 10) ∧
    (getResizeHandle x y shape = "" ↔
      ∀ hp ∈ shapeHandles shape, ¬ handleHit x y hp.2) ∧
    (∀ name, getResizeHandle x y shape = name → name ≠ "" →
      ∃ i, ∃ hi : i < (shapeHandles shape).length,
        ((shapeHandles shape).get ⟨i, hi⟩).1 = name ∧
        handleHit x y ((shapeHandles shape).get ⟨i, hi⟩).2 ∧
        ∀ j, ∀ hj : j < (shapeHandles shape).length, j < i →
          ¬ handleHit x y ((shapeHandles shape).get ⟨j, hj⟩).2) ∧
    getResizeHandle 0 0 lineH = "start" ∧
    getResizeHandle 10 0 lineH = "start" ∧
    getResizeHandle 11 0 lineH = "end" := by
  have hne : ∀ hp ∈ shapeHandles shape, hp.1 ≠ "" := by
    unfold shapeHandles
    split_ifs <;> simp
  have hmain := findHandleInList_first x y (shapeHandles shape) hne
  refine ⟨?_, hmain.1, hmain.2, ?_, ?_, ?_⟩
  · intro pos
    unfold handleHit handleSize
    constructor
    · rintro ⟨h1, h2, h3, h4⟩
      constructor <;> rw [abs_le] <;> constructor <;> linarith
    · rintro ⟨h1, h2⟩
      rw [abs_le] at h1 h2
      exact ⟨by linarith [h1.1], by linarith [h1.2],
        by linarith [h2.1], by linarith [h2.2]⟩
  · have h1 : handleHit 0 0 ⟨0, 0⟩ := by norm_num [handleHit, handleSize]
    simp only [getResizeHandle, shapeHandles, lineH]
    norm_num
    rw [findHandleInList, if_pos h1]
  · have h1 : handleHit 10 0 ⟨0, 0⟩ := by norm_num [handleHit, handleSize]
    simp only [getResizeHandle, shapeHandles, lineH]
    norm_num
    rw [findHandleInList, if_pos h1]
  · have h1 : ¬ handleHit 11 0 ⟨0, 0⟩ := by norm_num [handleHit, handleSize]
    have h2 : handleHit 11 0 ⟨10, 0⟩ := by norm_num [handleHit, handleSize]
    simp only [getResizeHandle, shapeHandles, lineH]
    norm_num
    rw [findHandleInList, if_neg h1, findHandleInList, if_pos h2]

/-- Counterexample for C8: at `(10, 0)` on the line from `(0,0)` to
`(10,0)` the code returns `start`, not `end` — the start handle at
distance exactly 10 passes the inclusive tolerance and is checked
first. -/
theorem getResizeHandle_ten_zero :
    getResizeHandle 10 0 lineH = "start" ∧
    getResizeHandle 10 0 lineH ≠ "end" := by
  have h1 : handleHit 10 0 ⟨0, 0⟩ := by norm_num [handleHit, handleSize]
  have hs : getResizeHandle 10 0 lineH = "start" := by
    simp only [getResizeHandle, shapeHandles, lineH]
    norm_num
    rw [findHandleInList, if_pos h1]
  refine ⟨hs, ?_⟩
  rw [hs]
  decide

/-- Witness for C8 (amended): at `(11, 0)` the scan returns `end`, and the
first-match characterisation produces the index of the `end` handle. -/
theorem getResizeHandle_spec_witness :
    getResizeHandle 11 0 lineH = "end" ∧
    ∃ i, ∃ hi : i < (shapeHandles lineH).length,
      ((shapeHandles lineH).get ⟨i, hi⟩).1 = "end" ∧
      handleHit 11 0 ((shapeHandles lineH).get ⟨i, hi⟩).2 ∧
      ∀ j, ∀ hj : j < (shapeHandles lineH).length, j < i →
        ¬ handleHit 11 0 ((shapeHandles lineH).get ⟨j, hj⟩).2 := by
  have h := getResizeHandle_spec 11 0 lineH
  have he : getResizeHandle 11 0 lineH = "end" := h.2.2.2.2.2
  exact ⟨he, h.2.2.1 "end" he (by decide)⟩

/-- Helper: two-sided Taylor bounds for `sin` on `[a, b] ⊆ [0, 1]`. -/
theorem sin_interval (x a b : ℝ) (h0 : 0 ≤ a) (ha : a ≤ x) (hb : x ≤ b)
    (hb1 : b ≤ 1) :
    a - b ^ 3 / 6 - b ^ 4 * (5 / 96) ≤ Real.sin x ∧
    Real.sin x ≤ b - a ^ 3 / 6 + b ^ 4 * (5 / 96) := by
  have hx0 : 0 ≤ x := le_trans h0 ha
  have hxabs : |x| ≤ 1 := by
    rw [abs_of_nonneg hx0]
    linarith
  have h := Real.sin_bound hxabs
  rw [abs_of_nonneg hx0, abs_le] at h
  have h3u : x ^ 3 ≤ b ^ 3 := pow_le_pow_left₀ hx0 hb 3
  have h3l : a ^ 3 ≤ x ^ 3 := pow_le_pow_left₀ h0 ha 3
  have h4 : x ^ 4 ≤ b ^ 4 := pow_le_pow_left₀ hx0 hb 4
  have h40 : (0:ℝ) ≤ x ^ 4 := by positivity
  constructor <;> linarith [h.1, h.2]

theorem cos_interval (x a b : ℝ) (h0 : 0 ≤ a) (ha : a ≤ x) (hb : x ≤ b)
    (hb1 : b ≤ 1) :
    1 - b ^ 2 / 2 - b ^ 4 * (5 / 96) ≤ Real.cos x ∧
    Real.cos x ≤ 1 - a ^ 2 / 2 + b ^ 4 * (5 / 96) := by
  have hx0 : 0 ≤ x := le_trans h0 ha
  have hxabs : |x| ≤ 1 := by
    rw [abs_of_nonneg hx0]
    linarith
  have h := Real.cos_bound hxabs
  rw [abs_of_nonneg hx0, abs_le] at h
  have h2u : x ^ 2 ≤ b ^ 2 := pow_le_pow_left₀ hx0 hb 2
  have h2l : a ^ 2 ≤ x ^ 2 := pow_le_pow_left₀ h0 ha 2
  have h4 : x ^ 4 ≤ b ^ 4 := pow_le_pow_left₀ hx0 hb 4
  have h40 : (0:ℝ) ≤ x ^ 4 := by positivity
  constructor <;> linarith [h.1, h.2]

theorem atan2_range (y x : ℝ) : -Real.pi < atan2 y x ∧ atan2 y x ≤ Real.pi := by
  have hpi := Real.pi_pos
  have hu := Real.arctan_lt_pi_div_two (y / x)
  have hl := Real.neg_pi_div_two_lt_arctan (y / x)
  unfold atan2
  split_ifs with hx hx2 hy hy2 hy3
  · exact ⟨by linarith, by linarith⟩
  · have hyx : y / x ≤ 0 := div_nonpos_iff.mpr (Or.inl ⟨hy, le_of_lt hx2⟩)
    have harct : Real.arctan (y / x) ≤ 0 := by
      have := Real.arctan_strictMono.monotone hyx
      rwa [Real.arctan_zero] at this
    exact ⟨by linarith, by linarith⟩
  · have hyx : 0 < y / x := by
      rw [div_pos_iff]
      exact Or.inr ⟨not_le.mp hy, hx2⟩
    have harct : 0 < Real.arctan (y / x) := by
      have := Real.arctan_strictMono hyx
      rwa [Real.arctan_zero] at this
    exact ⟨by linarith, by linarith⟩
  · exact ⟨by linarith, by linarith⟩
  · exact ⟨by linarith, by linarith⟩
  · exact ⟨by linarith, by linarith⟩

theorem round_within (d : ℝ) (h1 : -180 < d) (h2 : d ≤ 180) :
    -180 ≤ round d ∧ round d ≤ 180 := by
  rw [round_eq]
  constructor
  · rw [Int.le_floor]
    push_cast
    linarith
  · have h3 : ⌊d + 1 / 2⌋ < 181 := by
      rw [Int.floor_lt]
      push_cast
      linarith
    omega

set_option maxHeartbeats 1000000 in
theorem arctan_fourThirds_lower :
    52.5 * Real.pi / 180 < Real.arctan (4 / 3) := by
  have hpi := Real.pi_pos
  have hpl : (3.141592:ℝ) < Real.pi := Real.pi_gt_d6
  have hpu : Real.pi < 3.141593 := Real.pi_lt_d6
  have hu1 : (0.4581:ℝ) ≤ 52.5 * Real.pi / 360 := by nlinarith
  have hu2 : 52.5 * Real.pi / 360 ≤ 0.4582 := by nlinarith
  obtain ⟨hs1, hs2⟩ :=
    sin_interval (52.5 * Real.pi / 360) 0.4581 0.4582 (by norm_num) hu1 hu2 (by norm_num)
  obtain ⟨hc1, hc2⟩ :=
    cos_interval (52.5 * Real.pi / 360) 0.4581 0.4582 (by norm_num) hu1 hu2 (by norm_num)
  set u := 52.5 * Real.pi / 360 with hu_def
  have hs1n : (0.4397:ℝ) ≤ Real.sin u := le_trans (by norm_num) hs1
  have hs2n : Real.sin u ≤ 0.4445 := le_trans hs2 (by norm_num)
  have hc1n : (0.8927:ℝ) ≤ Real.cos u := le_trans (by norm_num) hc1
  have hc2n : Real.cos u ≤ 0.8974 := le_trans hc2 (by norm_num)
  have ha2u : 52.5 * Real.pi / 180 = 2 * u := by rw [hu_def]; ring
  have hsin_a : Real.sin (52.5 * Real.pi / 180) = 2 * Real.sin u * Real.cos u := by
    rw [ha2u, Real.sin_two_mul]
  have hpy := Real.sin_sq_add_cos_sq u
  have hcos_a : Real.cos (52.5 * Real.pi / 180) = 1 - 2 * Real.sin u ^ 2 := by
    rw [ha2u, Real.cos_two_mul']
    linarith
  have hcos_pos : 0 < Real.cos (52.5 * Real.pi / 180) := by
    rw [hcos_a]
    nlinarith [hs2n, hs1n]
  have hsc : Real.sin u * Real.cos u ≤ 0.4445 * 0.8974 :=
    mul_le_mul hs2n hc2n (le_trans (by norm_num) hc1n) (by norm_num)
  have hss : Real.sin u * Real.sin u ≤ 0.4445 * 0.4445 :=
    mul_le_mul hs2n hs2n (le_trans (by norm_num) hs1n) (by norm_num)
  have htan : Real.tan (52.5 * Real.pi / 180) < 4 / 3 := by
    rw [Real.tan_eq_sin_div_cos, div_lt_iff₀ hcos_pos, hsin_a, hcos_a]
    nlinarith [hsc, hss]
  have hmem1 : -(Real.pi / 2) < 52.5 * Real.pi / 180 := by nlinarith
  have hmem2 : 52.5 * Real.pi / 180 < Real.pi / 2 := by nlinarith
  calc 52.5 * Real.pi / 180
      = Real.arctan (Real.tan (52.5 * Real.pi / 180)) :=
        (Real.arctan_tan hmem1 hmem2).symm
    _ < Real.arctan (4 / 3) := Real.arctan_strictMono htan

set_option maxHeartbeats 1000000 in
theorem arctan_fourThirds_upper :
    Real.arctan (4 / 3) < 53.5 * Real.pi / 180 := by
  have hpi := Real.pi_pos
  have hpl : (3.141592:ℝ) < Real.pi := Real.pi_gt_d6
  have hpu : Real.pi < 3.141593 := Real.pi_lt_d6
  have hw1 : (0.23343:ℝ) ≤ 53.5 * Real.pi / 720 := by nlinarith
  have hw2 : 53.5 * Real.pi / 720 ≤ 0.23344 := by nlinarith
  obtain ⟨hs1, hs2⟩ :=
    sin_interval (53.5 * Real.pi / 720) 0.23343 0.23344 (by norm_num) hw1 hw2 (by norm_num)
  obtain ⟨hc1, hc2⟩ :=
    cos_interval (53.5 * Real.pi / 720) 0.23343 0.23344 (by norm_num) hw1 hw2 (by norm_num)
  set w := 53.5 * Real.pi / 720 with hw_def
  have hs1n : (0.23115:ℝ) ≤ Real.sin w := le_trans (by norm_num) hs1
  have hs2n : Real.sin w ≤ 0.23148 := le_trans hs2 (by norm_num)
  have hc1n : (0.97259:ℝ) ≤ Real.cos w := le_trans (by norm_num) hc1
  have hc2n : Real.cos w ≤ 0.97291 := le_trans hc2 (by norm_num)
  have hv2w : 53.5 * Real.pi / 360 = 2 * w := by rw [hw_def]; ring
  have hsin_v : Real.sin (53.5 * Real.pi / 360) = 2 * Real.sin w * Real.cos w := by
    rw [hv2w, Real.sin_two_mul]
  have hpyw := Real.sin_sq_add_cos_sq w
  have hcos_v : Real.cos (53.5 * Real.pi / 360) = 1 - 2 * Real.sin w ^ 2 := by
    rw [hv2w, Real.cos_two_mul']
    linarith
  set v := 53.5 * Real.pi / 360 with hv_def
  have hsv1 : (0.44962:ℝ) ≤ Real.sin v := by
    rw [hsin_v]
    nlinarith [mul_le_mul hs1n hc1n (by norm_num) (le_trans (by norm_num) hs1n)]
  have hsv2 : Real.sin v ≤ 0.45042 := by
    rw [hsin_v]
    nlinarith [mul_le_mul hs2n hc2n (le_trans (by norm_num) hc1n) (by norm_num)]
  have hcv1 : (0.89283:ℝ) ≤ Real.cos v := by
    rw [hcos_v]
    nlinarith [mul_le_mul hs2n hs2n (le_trans (by norm_num) hs1n) (by norm_num)]
  have hcv2 : Real.cos v ≤ 0.89314 := by
    rw [hcos_v]
    nlinarith [mul_le_mul hs1n hs1n (by norm_num) (le_trans (by norm_num) hs1n)]
  have hb2v : 53.5 * Real.pi / 180 = 2 * v := by rw [hv_def]; ring
  have hsin_b : Real.sin (53.5 * Real.pi / 180) = 2 * Real.sin v * Real.cos v := by
    rw [hb2v, Real.sin_two_mul]
  have hpyv := Real.sin_sq_add_cos_sq v
  have hcos_b : Real.cos (53.5 * Real.pi / 180) = 1 - 2 * Real.sin v ^ 2 := by
    rw [hb2v, Real.cos_two_mul']
    linarith
  have hcos_b_pos : 0 < Real.cos (53.5 * Real.pi / 180) := by
    rw [hcos_b]
    nlinarith [hsv2, hsv1]
  have htan : 4 / 3 < Real.tan (53.5 * Real.pi / 180) := by
    rw [Real.tan_eq_sin_div_cos, lt_div_iff₀ hcos_b_pos, hsin_b, hcos_b]
    nlinarith [mul_le_mul hsv1 hcv1 (by norm_num) (le_trans (by norm_num) hsv1),
      mul_le_mul hsv2 hsv2 (le_trans (by norm_num) hsv1) (by norm_num)]
  have hmem1 : -(Real.pi / 2) < 53.5 * Real.pi / 180 := by nlinarith
  have hmem2 : 53.5 * Real.pi / 180 < Real.pi / 2 := by nlinarith
  calc Real.arctan (4 / 3)
      < Real.arctan (Real.tan (53.5 * Real.pi / 180)) := Real.arctan_strictMono htan
    _ = 53.5 * Real.pi / 180 := Real.arctan_tan hmem1 hmem2


theorem lineLengthPx_line345 : lineLengthPx line345 = 5 := by
  unfold lineLengthPx distance
  rw [show (distSq ⟨line345.startX, line345.startY⟩
      ⟨line345.endX, line345.endY⟩ : ℚ) = 25 by norm_num [distSq, line345]]
  rw [show ((25 : ℚ) : ℝ) = 5 ^ 2 by norm_num,
    Real.sqrt_sq (by norm_num : (0:ℝ) ≤ 5)]
  rw [show (5 : ℝ) = ((5 : ℤ) : ℝ) by norm_num, round_intCast]

theorem statusLineLength_line345 : statusLineLength line345 = 5 := by
  unfold statusLineLength
  rw [show (((line345.endX - line345.startX) * (line345.endX - line345.startX) +
      (line345.endY - line345.startY) * (line345.endY - line345.startY) : ℚ)) = 25
    by norm_num [line345]]
  rw [show ((25 : ℚ) : ℝ) = 5 ^ 2 by norm_num,
    Real.sqrt_sq (by norm_num : (0:ℝ) ≤ 5)]
  rw [show (5 : ℝ) = ((5 : ℤ) : ℝ) by norm_num, round_intCast]

theorem statusLineAngle_line345 : statusLineAngle line345 = 53 := by
  have hpi := Real.pi_pos
  have hl := arctan_fourThirds_lower
  have hu := arctan_fourThirds_upper
  unfold statusLineAngle
  rw [show ((line345.endY - line345.startY : ℚ) : ℝ) = 4 by norm_num [line345]]
  rw [show ((line345.endX - line345.startX : ℚ) : ℝ) = 3 by norm_num [line345]]
  unfold atan2
  rw [if_pos (by norm_num : (0:ℝ) < 3)]
  have hd1 : (52.5:ℝ) < Real.arctan (4 / 3) * 180 / Real.pi := by
    rw [lt_div_iff₀ hpi]
    nlinarith
  have hd2 : Real.arctan (4 / 3) * 180 / Real.pi < 53.5 := by
    rw [div_lt_iff₀ hpi]
    nlinarith
  rw [round_eq, Int.floor_eq_iff]
  constructor
  · push_cast
    linarith
  · push_cast
    linarith

theorem statusLineAngle_lineBack_eq : statusLineAngle lineBack = -180 := by
  have hpi := Real.pi_pos
  have hpl : (3.141592:ℝ) < Real.pi := Real.pi_gt_d6
  unfold statusLineAngle
  rw [show ((lineBack.endY - lineBack.startY : ℚ) : ℝ) = -1 by norm_num [lineBack]]
  rw [show ((lineBack.endX - lineBack.startX : ℚ) : ℝ) = -1000 by norm_num [lineBack]]
  unfold atan2
  rw [if_neg (by norm_num : ¬ (0:ℝ) < -1000),
    if_pos (by norm_num : (-1000:ℝ) < 0),
    if_neg (by norm_num : ¬ (0:ℝ) ≤ -1)]
  rw [show ((-1:ℝ)) / (-1000) = 1 / 1000 by norm_num]
  have h0 : 0 < Real.arctan (1 / 1000) := by
    have h := Real.arctan_strictMono (show (0:ℝ) < 1 / 1000 by norm_num)
    rwa [Real.arctan_zero] at h
  have h1 : Real.arctan (1 / 1000) < 1 / 1000 := by
    have hlt := Real.lt_tan h0 (Real.arctan_lt_pi_div_two (1 / 1000))
    rwa [Real.tan_arctan] at hlt
  have hA : 0 < Real.arctan (1 / 1000) * 180 / Real.pi := by positivity
  have hB : Real.arctan (1 / 1000) * 180 / Real.pi < 1 / 2 := by
    rw [div_lt_iff₀ hpi]
    nlinarith
  have hE : (Real.arctan (1 / 1000) - Real.pi) * 180 / Real.pi =
      Real.arctan (1 / 1000) * 180 / Real.pi - 180 := by
    field_simp
    ring
  rw [hE, round_eq, Int.floor_eq_iff]
  constructor
  · push_cast
    linarith
  · push_cast
    linarith

/-- Helper: the status-bar angle of any shape record lies in `[-180, 180]`:
`atan2` returns an angle in `(-π, π]`, the degree conversion lands in
`(-180, 180]`, and rounding can reach `-180` but not pass it. -/
theorem statusLineAngle_range (s : Shape) :
    -180 ≤ statusLineAngle s ∧ statusLineAngle s ≤ 180 := by
  have hpi := Real.pi_pos
  obtain ⟨h1, h2⟩ := atan2_range ((s.endY - s.startY : ℚ) : ℝ)
    ((s.endX - s.startX : ℚ) : ℝ)
  unfold statusLineAngle
  apply round_within
  · rw [lt_div_iff₀ hpi]
    nlinarith
  · rw [div_le_iff₀ hpi]
    nlinarith

/-- Claim C9 (amended): a line is annotated on the canvas with the rounded
Euclidean length suffixed `px`, anchored near the segment midpoint, and the
status readout shows that length together with the angle
`round(atan2(dy,dx)·180/π)` in the range `[-180, 180]` (the value `-180`
is reached by rounding for directions just above `-180°`); the line from
`(0,0)` to `(3,4)` is annotated with length `5px` and angle `53°`. -/
theorem line_length_angle_labels :
    (∀ s : Shape, -180 ≤ statusLineAngle s ∧ statusLineAngle s ≤ 180) ∧
    lineLengthPx line345 = 5 ∧
    lineLabel line345 = { text := "5px", x := 13 / 2, y := -3 } ∧
    statusLineLength line345 = 5 ∧
    statusLineAngle line345 = 53 ∧
    lineDimensionsInfo line345 = "Length: 5px, Angle: 53°" := by
  refine ⟨statusLineAngle_range, lineLengthPx_line345, ?_,
    statusLineLength_line345, statusLineAngle_line345, ?_⟩
  · unfold lineLabel
    rw [lineLengthPx_line345]
    simp only [TextLabel.mk.injEq]
    refine ⟨by decide, by norm_num [line345], by norm_num [line345]⟩
  · unfold lineDimensionsInfo
    rw [statusLineLength_line345, statusLineAngle_line345]
    decide

/-- Counterexample for C9: the status-bar angle of the line from `(0,0)`
to `(-1000,-1)` is exactly `-180`, which falls outside the claimed range
`(-180, 180]`. -/
theorem statusLineAngle_hits_neg180 :
    statusLineAngle lineBack = -180 ∧ ¬ (-180 < statusLineAngle lineBack) := by
  refine ⟨statusLineAngle_lineBack_eq, ?_⟩
  rw [statusLineAngle_lineBack_eq]
  omega

end BuildingPlanner
